import Mathlib

/-!
Verification development for the GlobalProtect SSL-VPN tunnel core
(`src/gpst.c`).  The C source is shallowly embedded: machine integers
become `Nat`/`Int` with explicit truncation where the code truncates,
byte buffers become `List Nat`, C strings become `List Char` or
`String`, and the external collaborators (the HTTPS executor, the
non-blocking TLS read/write pair, the timer oracle, the OS TCP
diagnostics, libxml's document parser) become explicit oracle
parameters, exactly as §6 of the specification presents them.
-/

namespace Gpst

/-! ## Byte-order helpers

`store_be32`/`store_be16`/`store_le32` and the corresponding loads are
the byte-order helpers the source uses (`store_be32(hdr, ...)`,
`load_be32(hdr)`, ...).  Bytes are `Nat`s; each store emits bytes
reduced mod 256, each load consumes the first bytes of a list. -/

def store_be32 (n : Nat) : List Nat :=
  [n / 2 ^ 24 % 256, n / 2 ^ 16 % 256, n / 2 ^ 8 % 256, n % 256]

def store_be16 (n : Nat) : List Nat :=
  [n / 2 ^ 8 % 256, n % 256]

def store_le32 (n : Nat) : List Nat :=
  [n % 256, n / 2 ^ 8 % 256, n / 2 ^ 16 % 256, n / 2 ^ 24 % 256]

def load_be32 : List Nat → Nat
  | b0 :: b1 :: b2 :: b3 :: _ => ((b0 * 256 + b1) * 256 + b2) * 256 + b3
  | _ => 0

def load_be16 : List Nat → Nat
  | b0 :: b1 :: _ => b0 * 256 + b1
  | _ => 0

def load_le32 : List Nat → Nat
  | b0 :: b1 :: b2 :: b3 :: _ => ((b3 * 256 + b2) * 256 + b1) * 256 + b0
  | _ => 0

/-! ## Frame codec

The 16-byte tunnel frame header (gpst.c lines 43-51, the outgoing
stamping in `gpst_mainloop` lines 787-792, the static `dpd_pkt`
sentinel, and the header checks of the receive loop lines 655-707). -/

inductive Kind where
  | data
  | dpd
  deriving DecidableEq, Repr

/-- Big-endian EtherType of a frame: 0x0800 for IPv4 data, 0x0000 for
DPD/keepalive. -/
def etherOf : Kind → Nat
  | .data => 0x800
  | .dpd => 0

/-- Little-endian flag word: 1 for data, 0 for DPD. -/
def flagOf : Kind → Nat
  | .data => 1
  | .dpd => 0

/-- The 16-byte header: magic, ethertype, payload length (big-endian),
then the flag word and a zero word (little-endian).  For `.data` this
is exactly the `store_be32`/`store_be16`/`store_le32` sequence of
`gpst_mainloop`; for `.dpd` it is exactly the bytes of the static
`dpd_pkt` initialiser (magic then twelve zero bytes). -/
def gpst_hdr (k : Kind) (payload_len : Nat) : List Nat :=
  store_be32 0x1a2b3c4d ++ store_be16 (etherOf k) ++ store_be16 payload_len ++
    store_le32 (flagOf k) ++ store_le32 0

/-- A full encoded frame: header followed by the payload bytes. -/
def gpst_encode (k : Kind) (p : List Nat) : List Nat :=
  gpst_hdr k p.length ++ p

inductive DecodeErr where
  | shortFrame
  | badMagic
  | lengthMismatch
  | unknownEthertype
  deriving DecidableEq, Repr

/-- Frame decoding, following the header checks of the receive side of
`gpst_mainloop`: fewer than 16 bytes is a short frame; then the magic
is checked; then the byte count must equal 16 plus the encoded payload
length (the C check `len != 16 + payload_len`, with `len` the total
byte count, is equivalent to `payload.length ≠ payload_len` here);
then the frame kind is dispatched on the ethertype.  The two trailing
little-endian words are read but only logged by the source, so they do
not influence the result. -/
def gpst_decode (bytes : List Nat) : Except DecodeErr (Kind × List Nat) :=
  match bytes with
  | m0 :: m1 :: m2 :: m3 :: e0 :: e1 :: l0 :: l1 ::
      _f0 :: _f1 :: _f2 :: _f3 :: _z0 :: _z1 :: _z2 :: _z3 :: payload =>
    if load_be32 [m0, m1, m2, m3] ≠ 0x1a2b3c4d then .error .badMagic
    else if payload.length ≠ load_be16 [l0, l1] then .error .lengthMismatch
    else if load_be16 [e0, e1] = 0 then .ok (.dpd, payload)
    else if load_be16 [e0, e1] = 0x800 then .ok (.data, payload)
    else .error .unknownEthertype
  | _ => .error .shortFrame

/-! ## Challenge-script parser

`parse_javascript` (gpst.c lines 129-200).  The buffer is a list of
characters; a `none` result is the C `-EINVAL` return. -/

/-- C `isspace` on the ASCII characters that can occur here. -/
def isspace (c : Char) : Bool :=
  c == ' ' || c == '\t' || c == '\n' || c == '\x0b' || c == '\x0c' || c == '\r'

/-- The C `while (isspace(*end)) end++` loop. -/
def skipSpace : List Char → List Char
  | [] => []
  | c :: cs => if isspace c then skipSpace cs else c :: cs

/-- C `strncmp(s, pre, strlen(pre)) == 0`. -/
def hasPre : List Char → List Char → Bool
  | [], _ => true
  | _ :: _, [] => false
  | a :: as, b :: bs => a == b && hasPre as bs

/-- C `strchr(start, '\n')`: splits at the first newline, returning
the segment before it and the rest after it; `none` when there is no
newline. -/
def breakNl : List Char → Option (List Char × List Char)
  | [] => none
  | c :: cs =>
    if c = '\n' then some ([], cs)
    else (breakNl cs).map (fun q => (c :: q.1, q.2))

/-- The C shape check on one line: the character just before the
newline must be `;` and the one before that `"` (`end[-1]`/`end[-2]`),
which for a segment of length ≥ 2 inspects the segment's last two
characters.  (When the segment is shorter than 2 the C code inspects
the literal quote of the prefix and, on the lines that extract text,
additionally fails its `end < start+2` check; in every such case both
the C code and this model reject the line, for the status line after
the status-keyword comparison fails.) -/
def endsQS (l : List Char) : Bool :=
  match l.reverse with
  | c1 :: c2 :: _ => c1 == ';' && c2 == '"'
  | _ => false

def pre_status : List Char :=
  ['v', 'a', 'r', ' ', 'r', 'e', 's', 'p', 'S', 't', 'a', 't', 'u', 's',
   ' ', '=', ' ', '"']

def pre_prompt : List Char :=
  ['v', 'a', 'r', ' ', 'r', 'e', 's', 'p', 'M', 's', 'g', ' ', '=', ' ', '"']

def pre_inputStr : List Char :=
  ['t', 'h', 'i', 's', 'F', 'o', 'r', 'm', '.', 'i', 'n', 'p', 'u', 't',
   'S', 't', 'r', '.', 'v', 'a', 'l', 'u', 'e', ' ', '=', ' ', '"']

/-- C `strncmp(start, "Challenge", 8)` compares only 8 characters, so
it matches the 8-character head of the literal. -/
def chalPre : List Char := ['C', 'h', 'a', 'l', 'l', 'e', 'n', 'g']

def errPre : List Char := ['E', 'r', 'r', 'o', 'r']

/-- One line of the challenge script: skip whitespace, demand the
literal prefix, find the newline, demand the closing `";`.  Returns
the extracted text (the segment minus the trailing `";`), the raw
remainder right after the prefix (the C `start`, used for the status
keyword comparison), and the rest of the buffer after the newline. -/
def expectLine (pre s : List Char) : Option (List Char × List Char × List Char) :=
  if hasPre pre (skipSpace s) then
    match breakNl ((skipSpace s).drop pre.length) with
    | none => none
    | some (seg, rest) =>
      if endsQS seg then
        some (seg.take (seg.length - 2), (skipSpace s).drop pre.length, rest)
      else none
  else none

/-- The status keyword comparison, applied to the raw remainder right
after the `respStatus` prefix. -/
def statusOf (r1 : List Char) : Option Nat :=
  if hasPre chalPre r1 then some 0
  else if hasPre errPre r1 then some 1
  else none

/-- `parse_javascript`: returns the status (0 = Challenge, 1 = Error)
together with the extracted prompt and inputStr; `none` is the C
`-EINVAL` (any `goto err`).  All three lines are demanded by the
source: a missing `thisForm.inputStr` line takes the `err2` exit even
when the status was Error. -/
def parse_javascript (buf : List Char) : Option (Nat × List Char × List Char) :=
  (expectLine pre_status buf).bind (fun t1 =>
    (statusOf t1.2.1).bind (fun status =>
      (expectLine pre_prompt t1.2.2).bind (fun t2 =>
        (expectLine pre_inputStr t2.2.2).bind (fun t3 =>
          if skipSpace t3.2.2 = [] then some (status, t2.1, t3.1) else none))))

/-! ## MTU estimator

`calculate_mtu` (gpst.c lines 295-359).  The OS TCP diagnostics are an
oracle: `TCP_INFO` (when the `getsockopt` succeeds) and the
`TCP_MAXSEG` option.  All quantities are C `int`s, hence `Int`. -/

structure TcpInfo where
  rcv_mss : Int
  snd_mss : Int
  pmtu : Int
  deriving DecidableEq, Repr

structure MtuEnv where
  tcpInfo : Option TcpInfo
  maxseg : Option Int
  peerIsV6 : Bool
  deriving DecidableEq, Repr

def ESP_OVERHEAD : Int := 4 + 4 + 20 + 32 + 1 + 1 + 16
def UDP_HEADER_SIZE : Int := 8
def IPV4_HEADER_SIZE : Int := 20
def IPV6_HEADER_SIZE : Int := 40

def calculate_mtu (reqmtu basemtu : Int) (env : MtuEnv) : Int :=
  let mtu := reqmtu
  let base_mtu := basemtu
  let base_mtu :=
    if mtu = 0 ∨ base_mtu = 0 then
      match env.tcpInfo with
      | some ti =>
        let b := if base_mtu = 0 then ti.pmtu else base_mtu
        if b = 0 then
          (if ti.rcv_mss < ti.snd_mss then ti.rcv_mss - 13 else ti.snd_mss - 13)
        else b
      | none => base_mtu
    else base_mtu
  let base_mtu :=
    if base_mtu = 0 then
      match env.maxseg with
      | some mss => mss - 13
      | none => base_mtu
    else base_mtu
  let base_mtu := if base_mtu = 0 then 1406 else base_mtu
  let base_mtu := if base_mtu < 1280 then 1280 else base_mtu
  if mtu = 0 then
    base_mtu - ESP_OVERHEAD - UDP_HEADER_SIZE -
      (if env.peerIsV6 then IPV6_HEADER_SIZE else IPV4_HEADER_SIZE)
  else mtu

/-! ## Config negotiation

`gpst_parse_config_xml`, `gpst_xml_or_error` and `gpst_get_config`
(gpst.c lines 202-539).  libxml is an external collaborator, so a
server body enters the model already classified by its parse result:
either it is not XML at all (then the challenge-script outcomes
apply), or it is XML with a root that is an error `<response>`, a
config `<response>`, or some other element.  A config `<response>` is
its list of child elements in document order, each child reduced to
the text values `gpst_parse_config_xml` extracts from it. -/

/-- One child element of a config `<response>`, in document order.
`dnsC`/`winsC`/`dnsSuffixC`/`accessRoutes` carry the text of their
`<member>` children in document order. -/
inductive CfgElem where
  | ipAddress (s : String)
  | netmaskC (s : String)
  | mtuC (n : Int)
  | sslTunnelUrl (s : String)
  | timeoutC (sec : Int)
  | gwAddress (s : String)
  | dnsC (ms : List String)
  | winsC (ms : List String)
  | dnsSuffixC (ms : List String)
  | accessRoutes (ms : List String)
  | ipsecC
  | unknownElem
  deriving DecidableEq, Repr

/-- The root of a body that parsed as XML: a `<response>` whose
`status` attribute is `error` (with the text of its first `<error>`
child, if any), a `<response>` without that attribute (the config
case), or any other root element. -/
inductive XmlRoot where
  | responseErr (errText : Option String)
  | responseCfg (elems : List CfgElem)
  | otherRoot
  deriving DecidableEq, Repr

/-- A server body as classified by `gpst_xml_or_error`: absent, XML,
a challenge script that parsed with status Challenge or Error, or
neither XML nor a well-formed challenge script. -/
inductive RespBody where
  | noBody
  | xmlBody (root : XmlRoot)
  | jsChallenge (prompt inputStr : String)
  | jsError (prompt : String)
  | garbage
  deriving DecidableEq, Repr

/-- The caller-visible session state `gpst_get_config` and
`gpst_parse_config_xml` operate on: the `cstp_options` list (head =
most recently added, since `add_option` prepends), the `oc_ip_info`
fields, the URL path, the rekey/DPD timer settings, and the
configured MTU inputs of `calculate_mtu`. -/
structure GpState where
  cstpOptions : List (String × String)
  addr : Option String
  netmask : Option String
  domain : Option String
  mtu : Int
  dns : List String
  nbns : List String
  splitIncludes : List String
  urlpath : String
  rekeyToTunnel : Bool
  rekey : Int
  lastRekey : Nat
  dpd : Nat
  keepalive : Nat
  gatewayAddr : String
  reqMtu : Int
  baseMtu : Int
  deriving DecidableEq, Repr

/-- Positional overwrite of the fixed `dns[3]`/`nbns[3]` arrays by the
members of one `<dns>`/`<wins>` element (the per-element loop restarts
its index at 0 and stops after three members). -/
def fill3 (old new : List String) : List String :=
  new.take 3 ++ old.drop (new.take 3).length

/-- Effect of one child element on the state, mirroring the
`for (xml_node = ...)` dispatch of `gpst_parse_config_xml`;
`add_option` prepends to the option list. -/
def cfgStep (now : Nat) (st : GpState) (e : CfgElem) : GpState :=
  match e with
  | .ipAddress s =>
    { st with addr := some s, cstpOptions := ("ipaddr", s) :: st.cstpOptions }
  | .netmaskC s =>
    { st with netmask := some s, cstpOptions := ("netmask", s) :: st.cstpOptions }
  | .mtuC n => { st with mtu := n }
  | .sslTunnelUrl s => { st with urlpath := s }
  | .timeoutC sec =>
    { st with lastRekey := now, rekey := sec - 60, rekeyToTunnel := true }
  | .gwAddress _ => st
  | .dnsC ms =>
    { st with dns := fill3 st.dns ms,
              cstpOptions :=
                (ms.take 3).foldl (fun o v => ("DNS", v) :: o) st.cstpOptions }
  | .winsC ms =>
    { st with nbns := fill3 st.nbns ms,
              cstpOptions :=
                (ms.take 3).foldl (fun o v => ("WINS", v) :: o) st.cstpOptions }
  | .dnsSuffixC ms =>
    match ms with
    | [] => st
    | m :: _ =>
      { st with domain := some m, cstpOptions := ("search", m) :: st.cstpOptions }
  | .accessRoutes ms =>
    ms.foldl
      (fun s m =>
        { s with splitIncludes := m :: s.splitIncludes,
                 cstpOptions := ("split-include", m) :: s.cstpOptions })
      st
  | .ipsecC => st
  | .unknownElem => st

/-- `gpst_parse_config_xml`: demands a `<response>` root, clears the
old options and IP info, folds the children in document order, then
applies the 10-second DPD default and sets `keepalive = dpd`.
Returns the C result (`0` on success, `-EINVAL` = `-22` on a wrong
root) with the updated state. -/
def gpst_parse_config_xml (now : Nat) (st : GpState) (root : XmlRoot) :
    Int × GpState :=
  match root with
  | .responseCfg elems =>
    let st := { st with addr := none, netmask := none, domain := none,
                        mtu := 0, rekeyToTunnel := false, cstpOptions := [],
                        dns := [], nbns := [], splitIncludes := [] }
    let st := elems.foldl (cfgStep now) st
    let d := if st.dpd = 0 then 10 else st.dpd
    (0, { st with dpd := d, keepalive := d })
  | _ => (-22, st)

/-- `gpst_xml_or_error` with `gpst_parse_config_xml` as the XML
callback and null `prompt`/`inputStr` out-parameters (the
`gpst_get_config` call site).  Error-code returns: `-EEXIST` = `-17`
for the two no-such-gateway sentinels, `-EPERM` = `-1` for the invalid
auth cookie, `-EINVAL` = `-22` otherwise.  A challenge script returns
its `parse_javascript` status directly (0 for Challenge — the
out-parameters are null — and 1 for Error), and an error `<response>`
without an `<error>` child falls through `bad_xml` returning the
incoming result unchanged. -/
def gpst_xml_or_error (now : Nat) (st : GpState) (result : Int)
    (body : RespBody) : Int × GpState :=
  if result < 0 then (result, st)
  else
    match body with
    | .noBody => (-22, st)
    | .garbage => (-22, st)
    | .jsError _ => (1, st)
    | .jsChallenge _ _ => (0, st)
    | .xmlBody (.responseErr (some e)) =>
      (if e = "GlobalProtect gateway does not exist" ∨
          e = "GlobalProtect portal does not exist" then -17
       else if e = "Invalid authentication cookie" then -1
       else -22, st)
    | .xmlBody (.responseErr none) => (result, st)
    | .xmlBody (.responseCfg elems) =>
      gpst_parse_config_xml now st (.responseCfg elems)
    | .xmlBody .otherRoot => gpst_parse_config_xml now st .otherRoot

/-- The netmask half of the reconnect validation in `gpst_get_config`:
when a netmask was previously set, the new one must compare equal (a
new state with no netmask at all cannot compare equal — the C
`strcmp` against a null pointer never succeeds). -/
def gpst_netmask_check (oldNetmask : Option String) (st2 : GpState) :
    Int × GpState × Bool :=
  match oldNetmask with
  | some m => if st2.netmask ≠ some m then (-22, st2, true) else (0, st2, true)
  | none => (0, st2, true)

/-- The validation tail of `gpst_get_config` (lines 508-534): a
missing address aborts; on a reconnect the address must be unchanged;
then the netmask check; every one of these paths — success or failure —
falls through the `out:` label, which is where `free_optlist` releases
the previous option list (the `true` component). -/
def gpst_validate (oldAddr oldNetmask : Option String) (st2 : GpState) :
    Int × GpState × Bool :=
  match st2.addr with
  | none => (-22, st2, true)
  | some a =>
    match oldAddr with
    | some olda =>
      if a ≠ olda then (-22, st2, true) else gpst_netmask_check oldNetmask st2
    | none => gpst_netmask_check oldNetmask st2

/-- `gpst_get_config`: the HTTP round trip is the `httpRes`/`body`
oracle pair (the request-body construction and the temporary
`urlpath` swap have no caller-visible effect and are elided).  The
returned triple is (C result, caller-visible state after the call,
whether `free_optlist` released the option list that was current at
entry).  A negative HTTP result exits through `pre_opt_out` without
touching anything; a nonzero classification result returns directly
(also without releasing the old list); otherwise the MTU is estimated
when the parsed one is 0 and the reconnect validation runs. -/
def mtuFix (menv : MtuEnv) (s : GpState) : GpState :=
  if s.mtu = 0 then { s with mtu := calculate_mtu s.reqMtu s.baseMtu menv }
  else s

def gpst_get_config (now : Nat) (st : GpState) (httpRes : Int)
    (body : RespBody) (menv : MtuEnv) : Int × GpState × Bool :=
  if httpRes < 0 then (httpRes, st, false)
  else
    let r1 := (gpst_xml_or_error now st httpRes body).1
    let st1 := (gpst_xml_or_error now st httpRes body).2
    if r1 ≠ 0 then (r1, st1, false)
    else gpst_validate st.addr st.netmask (mtuFix menv st1)

/-! ## Tunnel opener

`gpst_connect` (gpst.c lines 541-605).  The TLS collaborator is an
oracle: the `openconnect_open_https` result, the single
`ssl_read(buf, 12)` result (return value plus the bytes deposited in
`buf`), the prior contents of the 256-byte stack buffer beyond what
the read wrote, and the `ssl_gets` result for the optional extra
line. -/

/-- The 12 ASCII bytes of the `START_TUNNEL` sentinel (no
terminator). -/
def START_TUNNEL : List Nat :=
  [0x53, 0x54, 0x41, 0x52, 0x54, 0x5f, 0x54, 0x55, 0x4e, 0x4e, 0x45, 0x4c]

structure ConnEnv where
  openRes : Int
  readRet : Int
  readBytes : List Nat
  bufRest : List Nat
  getsRet : Int
  now : Nat

/-- Observable outcome of `gpst_connect`: the C return value, how many
`ssl_gets` calls consumed extra response lines, the three liveness
timestamps after the call, whether the socket was registered for
read/except monitoring, whether the HTTPS connection was closed again,
and the byte counts requested from `ssl_read`. -/
structure ConnRes where
  ret : Int
  getsCalls : Nat
  lastRekey : Nat
  lastRx : Nat
  lastTx : Nat
  monitored : Bool
  closedHttps : Bool
  readRequests : List Nat
  deriving DecidableEq, Repr

/-- `gpst_connect`.  `t0` holds the `(last_rekey, last_rx, last_tx)`
timestamps before the call.  The GET request line itself (request
construction and `filter_opts` on the cookie) has no influence on the
observables modelled here and is elided.  Error codes: `-EINTR` = `-4`
passes through, any other read error becomes `-EINVAL` = `-22` (both
skip the close), a zero-length read is `-EPIPE` = `-32`, any other
response is `-EINVAL` = `-22` after `ssl_gets` consumed one extra line
when exactly 12 bytes had arrived. -/
def gpst_connect (t0 : Nat × Nat × Nat) (env : ConnEnv) : ConnRes :=
  if env.openRes ≠ 0 then
    ⟨env.openRes, 0, t0.1, t0.2.1, t0.2.2, false, false, []⟩
  else if env.readRet < 0 then
    if env.readRet = -4 then
      ⟨env.readRet, 0, t0.1, t0.2.1, t0.2.2, false, false, [12]⟩
    else ⟨-22, 0, t0.1, t0.2.1, t0.2.2, false, false, [12]⟩
  else
    if (env.readBytes ++ env.bufRest).take 12 = START_TUNNEL then
      ⟨0, 0, env.now, env.now, env.now, true, false, [12]⟩
    else if env.readRet = 0 then
      ⟨-32, 0, t0.1, t0.2.1, t0.2.2, false, true, [12]⟩
    else
      ⟨-22, if env.readRet = 12 then 1 else 0, t0.1, t0.2.1, t0.2.2,
        false, true, [12]⟩

/-! ## Main loop

`gpst_mainloop` (gpst.c lines 620-803).  The collaborators are
oracles: the successive `ssl_nonblock_read` results of the receive
loop, the `ssl_nonblock_write` result for each write attempt (indexed
by attempt number), `ka_stalled_action` (consulted at most once per
invocation, since every stalled-write branch ends the invocation),
`keepalive_action` (indexed by call number — it runs again after every
completed write), and the `ssl_reconnect` result.  The `goto`-based
control flow is restructured as one pass per in-flight packet: a pass
services the current packet (if any), consults `keepalive_action`, and
either finishes the invocation or loops back to `handle_outgoing` with
a DPD sentinel or a freshly dequeued packet; the fuelled driver
`wdrive` iterates passes. -/

inductive KA where
  | ka_none
  | keepalive
  | dpd
  | dpd_dead
  | rekey
  deriving DecidableEq, Repr

/-- An outgoing/in-flight packet: the 16 header bytes, the payload
buffer, the `pkt->len` field, and whether this is the static
`dpd_pkt` sentinel (which the write path must never free). -/
structure Pkt where
  hdr : List Nat
  payload : List Nat
  pktLen : Nat
  isDpd : Bool
  deriving DecidableEq, Repr

/-- The statically allocated DPD sentinel: magic followed by twelve
zero bytes, zero-length payload. -/
def dpd_pkt : Pkt := ⟨gpst_hdr .dpd 0, [], 0, true⟩

/-- Header stamping of a dequeued packet (gpst.c lines 787-792). -/
def stampHeader (p : Pkt) : Pkt := { p with hdr := gpst_hdr .data p.pktLen }

/-- One `ssl_nonblock_read` result: no data ready, an error, or a
buffer of received bytes. -/
inductive ReadRes where
  | noData
  | rerr (e : Int)
  | bytes (bs : List Nat)

structure Env where
  now : Nat
  reads : List ReadRes
  writeRes : Nat → Int
  kaStalled : KA
  ka : Nat → KA
  reconnectRes : Int

structure MLState where
  sslOpen : Bool
  currentSslPkt : Option Pkt
  outgoingQueue : List Pkt
  incomingQueue : List (List Nat)
  lastRx : Nat
  lastTx : Nat
  lastRekey : Nat
  quitReason : Option String
  dtlsConnected : Bool
  monitoredWrite : Bool
  deriving DecidableEq, Repr

/-- Observable outcome of one `gpst_mainloop` invocation: the C return
value, the state afterwards, the write attempts issued to the TLS
collaborator (buffer bytes and requested length, in order), and the
packets dequeued from the outgoing queue (in order). -/
structure MLRes where
  ret : Int
  st : MLState
  writes : List (List Nat × Nat)
  dequeued : List Pkt
  deriving DecidableEq, Repr

/-- The `do_reconnect` tail: `ssl_reconnect` succeeds and the
invocation returns 1, or it fails, `quit_reason` is set and its result
is returned.  (The internal state rebuilt by a successful
`ssl_reconnect` is outside this invocation model.) -/
def doReconnect (env : Env) (st : MLState) (ws : List (List Nat × Nat))
    (dq : List Pkt) : MLRes :=
  if env.reconnectRes = 0 then ⟨1, st, ws, dq⟩
  else ⟨env.reconnectRes, { st with quitReason := some "GPST reconnect failed" },
        ws, dq⟩

/-- Outcome of one pass through the write half: either the invocation
finishes with a result, or control loops back to `handle_outgoing`
with updated state and counters. -/
inductive PassOut where
  | ret (r : MLRes)
  | again (st : MLState) (wi ki : Nat) (ws : List (List Nat × Nat))
      (dq : List Pkt)

/-- The `while ((vpninfo->current_ssl_pkt = dequeue_packet(...)))`
loop head: with no DTLS and a non-empty queue, pop the head, stamp its
header, and loop back to `handle_outgoing`; otherwise the invocation
returns `work_done`. -/
def deqStep (wd : Bool) (st : MLState) (wi ki : Nat)
    (ws : List (List Nat × Nat)) (dq : List Pkt) : PassOut :=
  if st.dtlsConnected then .ret ⟨if wd then 1 else 0, st, ws, dq⟩
  else
    match st.outgoingQueue with
    | [] => .ret ⟨if wd then 1 else 0, st, ws, dq⟩
    | q :: rest =>
      let p := stampHeader q
      .again { st with currentSslPkt := some p, outgoingQueue := rest }
        wi ki ws (dq ++ [p])

/-- The `switch (keepalive_action(...))`: rekey and dead-peer go to
reconnect; `KA_KEEPALIVE` skips the sentinel when real data is queued
(and otherwise falls through to `KA_DPD`, which loops back to
`handle_outgoing` with the DPD sentinel); `KA_NONE` matches no case
and control reaches the dequeue loop. -/
def kaStep (env : Env) (wd : Bool) (st : MLState) (wi ki : Nat)
    (ws : List (List Nat × Nat)) (dq : List Pkt) : PassOut :=
  match env.ka ki with
  | .rekey => .ret (doReconnect env st ws dq)
  | .dpd_dead => .ret (doReconnect env st ws dq)
  | .keepalive =>
    if !st.dtlsConnected && !st.outgoingQueue.isEmpty then
      deqStep wd st wi (ki + 1) ws dq
    else .again { st with currentSslPkt := some dpd_pkt } wi (ki + 1) ws dq
  | .dpd => .again { st with currentSslPkt := some dpd_pkt } wi (ki + 1) ws dq
  | .ka_none => deqStep wd st wi (ki + 1) ws dq

/-- One pass: `handle_outgoing` for the current packet when there is
one (update `last_tx`, drop the write monitor, attempt the write with
the same buffer and `len + 16`), then dispatch on the write result —
reconnect on error; on no progress consult `ka_stalled_action` (whose
`KA_KEEPALIVE`/`KA_DPD` values fall through the switch into the
short-write check, hence "Internal error"); on a short count fail
fatally; on success release the packet slot and continue with the
keepalive switch. -/
def onePass (env : Env) (wd : Bool) (st : MLState) (wi ki : Nat)
    (ws : List (List Nat × Nat)) (dq : List Pkt) : PassOut :=
  match st.currentSslPkt with
  | none => kaStep env wd st wi ki ws dq
  | some p =>
    let st1 := { st with lastTx := env.now, monitoredWrite := false }
    let ws1 := ws ++ [(p.hdr ++ p.payload, p.pktLen + 16)]
    let r := env.writeRes wi
    if r < 0 then .ret (doReconnect env st1 ws1 dq)
    else if r = 0 then
      match env.kaStalled with
      | .rekey => .ret (doReconnect env st1 ws1 dq)
      | .dpd_dead => .ret (doReconnect env st1 ws1 dq)
      | .ka_none => .ret ⟨if wd then 1 else 0, st1, ws1, dq⟩
      | _ => .ret ⟨1, { st1 with quitReason := some "Internal error" }, ws1, dq⟩
    else if r ≠ (p.pktLen + 16 : Int) then
      .ret ⟨1, { st1 with quitReason := some "Internal error" }, ws1, dq⟩
    else kaStep env wd { st1 with currentSslPkt := none } (wi + 1) ki ws1 dq

/-- Fuelled driver for the write half: each unit of fuel runs one
pass.  (The C loop genuinely diverges when every write succeeds and
`keepalive_action` keeps demanding DPD, so a fuel bound is the honest
rendering.) -/
def wdrive (env : Env) (wd : Bool) :
    Nat → MLState → Nat → Nat → List (List Nat × Nat) → List Pkt →
    Option MLRes
  | 0, _, _, _, _, _ => none
  | fuel + 1, st, wi, ki, ws, dq =>
    match onePass env wd st wi ki ws dq with
    | .ret r => some r
    | .again st' wi' ki' ws' dq' => wdrive env wd fuel st' wi' ki' ws' dq'

/-- Outcome of the receive loop: fall through to the write half,
return from inside the loop, or jump to `do_reconnect`. -/
inductive RdOut where
  | done (st : MLState) (wd : Bool)
  | finished (r : Int) (st : MLState)
  | reconn (st : MLState)

/-- The receive loop (gpst.c lines 630-708): drain reads until none is
ready; a read error goes to reconnect; fewer than 16 bytes is the
fatal short-packet exit; a bad magic is the fatal unknown-packet exit
(before `last_rx` is touched); a length mismatch is logged and
skipped; otherwise `last_rx` is updated and the frame is dispatched —
DPD is consumed, a data frame is queued inbound and marks progress,
and any other ethertype is the fatal unknown-packet exit (after the
`last_rx` update).  Packet-buffer allocation is elided. -/
def readLoop (env : Env) : MLState → Bool → List ReadRes → RdOut
  | st, wd, [] => .done st wd
  | st, wd, rr :: rs =>
    match rr with
    | .noData => .done st wd
    | .rerr _ => .reconn st
    | .bytes bs =>
      if bs.length = 0 then .done st wd
      else if bs.length < 16 then
        .finished 1 { st with quitReason := some "Short packet received" }
      else if load_be32 bs ≠ 0x1a2b3c4d then
        .finished 1 { st with quitReason := some "Unknown packet received" }
      else if bs.length ≠ 16 + load_be16 (bs.drop 6) then readLoop env st wd rs
      else
        let st1 := { st with lastRx := env.now }
        if load_be16 (bs.drop 4) = 0 then readLoop env st1 wd rs
        else if load_be16 (bs.drop 4) = 0x800 then
          readLoop env
            { st1 with incomingQueue := st1.incomingQueue ++ [bs.drop 16] }
            true rs
        else .finished 1 { st1 with quitReason := some "Unknown packet received" }

/-- One invocation of `gpst_mainloop`: a torn-down socket goes
straight to reconnect; otherwise the receive loop runs, and unless it
ended the invocation, the write half follows. -/
def gpst_mainloop (fuel : Nat) (st : MLState) (env : Env) : Option MLRes :=
  if st.sslOpen = false then some (doReconnect env st [] [])
  else
    match readLoop env st false env.reads with
    | .finished r st' => some ⟨r, st', [], []⟩
    | .reconn st' => some (doReconnect env st' [] [])
    | .done st' wd => wdrive env wd fuel st' 0 0 [] []

/-! ## Concrete fixtures

Closed inputs used by the counterexample and witness theorems. -/

/-- A fresh session state: nothing negotiated yet. -/
def gpstState0 : GpState :=
  ⟨[], none, none, none, 0, [], [], [], "/ssl-tunnel-connect.sslvpn",
    false, 0, 0, 0, 0, "gw", 0, 0⟩

def mtuEnv0 : MtuEnv := ⟨none, none, false⟩

/-- A session that had already negotiated an address and a netmask. -/
def c2_st0 : GpState :=
  { gpstState0 with addr := some "10.0.0.2", netmask := some "255.255.255.0",
                    cstpOptions := [("ipaddr", "10.0.0.2")] }

/-- A session that had negotiated an address but no netmask. -/
def c7_st0 : GpState := { gpstState0 with addr := some "10.0.0.2" }

def c7_body : RespBody :=
  .xmlBody (.responseCfg [.ipAddress "10.0.0.2", .netmaskC "255.255.255.0"])

/-- The state `gpst_get_config` produces from `c7_st0` and `c7_body`. -/
def c7_expected : GpState :=
  { gpstState0 with
      cstpOptions := [("netmask", "255.255.255.0"), ("ipaddr", "10.0.0.2")],
      addr := some "10.0.0.2", netmask := some "255.255.255.0",
      mtu := 1300, dpd := 10, keepalive := 10 }

/-- Challenge-script bodies of the literal line shapes, assembled so
that the status line carries `Error`. -/
def jsStatusLineErr (rest : List Char) : List Char :=
  pre_status ++ (errPre ++ ('"' :: ';' :: '\n' :: rest))

def jsMsgLine (p rest : List Char) : List Char :=
  pre_prompt ++ (p ++ ('"' :: ';' :: '\n' :: rest))

def jsInputLine (i rest : List Char) : List Char :=
  pre_inputStr ++ (i ++ ('"' :: ';' :: '\n' :: rest))

/-- Full three-line Error body. -/
def jsErrorBody3 (p i : List Char) : List Char :=
  jsStatusLineErr (jsMsgLine p (jsInputLine i []))

/-- Error body with the `thisForm.inputStr` line absent. -/
def jsErrorBody2 (p : List Char) : List Char :=
  jsStatusLineErr (jsMsgLine p [])

/-- A quiet main-loop state: socket up, no packet in flight, queues
empty. -/
def mlState0 : MLState := ⟨true, none, [], [], 0, 0, 0, none, false, true⟩

def pktA : Pkt := ⟨List.replicate 16 0, [170], 1, false⟩

def pktB : Pkt := ⟨List.replicate 16 0, [187], 1, false⟩

/-- Two packets queued outbound, nothing in flight. -/
def c3_st : MLState := { mlState0 with outgoingQueue := [pktA, pktB] }

/-- A write collaborator that accepts all 17 bytes of each stamped
one-byte packet, timers quiet. -/
def c3_env : Env := ⟨5, [], fun _ => 17, .ka_none, fun _ => .ka_none, 0⟩

/-- A packet already in flight. -/
def c4_st : MLState := { mlState0 with currentSslPkt := some pktA }

/-- A write collaborator that makes no progress, timers quiet. -/
def c4_env1 : Env := ⟨7, [], fun _ => 0, .ka_none, fun _ => .ka_none, 0⟩

def c4_env2 : Env := ⟨9, [], fun _ => 0, .ka_none, fun _ => .ka_none, 0⟩

/-- A well-formed 16-byte frame with good magic, consistent length and
ethertype 0x86dd (neither DPD nor IPv4). -/
def c10_frame : List Nat :=
  [0x1a, 0x2b, 0x3c, 0x4d, 0x86, 0xdd, 0, 0, 0, 0, 0, 0, 0, 0, 0, 0]

def c10_env : Env := ⟨3, [.bytes c10_frame], fun _ => 0, .ka_none, fun _ => .ka_none, 0⟩

/-- A tunnel handshake in which the server answers with the sentinel. -/
def c9_env_ok : ConnEnv := ⟨0, 12, START_TUNNEL, List.replicate 244 0, 0, 42⟩

/-- The outcome of one stalled invocation on `c4_st`/`c4_env1`. -/
def c3w_res : MLRes :=
  ⟨0, { c4_st with lastTx := 7, monitoredWrite := false },
    [(pktA.hdr ++ pktA.payload, pktA.pktLen + 16)], []⟩

/-! ## Theorems -/

/-- C1: for every kind in {data, dpd} and every payload of at most
65535 bytes, decoding the encoded frame yields back exactly the kind
and the payload. -/
theorem C1_frame_roundtrip (k : Kind) (p : List Nat) (h : p.length ≤ 65535) :
    gpst_decode (gpst_encode k p) = .ok (k, p) := by
  have hlen : p.length / 256 % 256 * 256 + p.length % 256 = p.length := by
    omega
  cases k <;>
    simp [gpst_encode, gpst_hdr, store_be32, store_be16, store_le32, etherOf,
      flagOf, gpst_decode, load_be32, load_be16, hlen]

/-- Witness for C1 at a concrete data frame. -/
theorem C1_frame_roundtrip_witness :
    ([1, 2, 3] : List Nat).length ≤ 65535 ∧
      gpst_decode (gpst_encode .data [1, 2, 3]) = .ok (.data, [1, 2, 3]) :=
  ⟨by decide, C1_frame_roundtrip .data [1, 2, 3] (by decide)⟩

/-- C8: with requested MTU 0 and no OS diagnostics, the unknown base
MTU defaults to 1406, the base is clamped to at least 1280, and the
result is base minus the ESP overhead 78, the UDP header 8 and the IP
header (20 for IPv4, 40 for IPv6); in particular 1300 for an IPv4 peer
with no diagnostics. -/
theorem C8_mtu_default_clamp_overhead :
    ∀ (v6 : Bool) (b : Int),
      calculate_mtu 0 b ⟨none, none, v6⟩ =
        max (if b = 0 then 1406 else b) 1280 - 78 - 8 -
          (if v6 then 40 else 20) ∧
      calculate_mtu 0 0 ⟨none, none, false⟩ = 1300 := by
  intro v6 b
  constructor
  · simp only [calculate_mtu, ESP_OVERHEAD, UDP_HEADER_SIZE, IPV4_HEADER_SIZE,
      IPV6_HEADER_SIZE]
    norm_num
    split_ifs <;> omega
  · decide

/-- `strchr(_, newline)` splits a newline-free head off. -/
theorem breakNl_append (p rest : List Char) (hp : '\n' ∉ p) :
    breakNl (p ++ '\n' :: rest) = some (p, rest) := by
  induction p with
  | nil => simp [breakNl]
  | cons c cs ih =>
    have hc : c ≠ '\n' := fun h => hp (h ▸ List.mem_cons_self c cs)
    have ih' := ih (fun h => hp (List.mem_cons_of_mem _ h))
    simp [breakNl, hc, ih']

theorem hasPre_append (pre rest : List Char) : hasPre pre (pre ++ rest) = true := by
  induction pre with
  | nil => simp [hasPre]
  | cons a as ih => simp [hasPre, ih]

theorem skipSpace_cons (c : Char) (l : List Char) (h : isspace c = false) :
    skipSpace (c :: l) = c :: l := by
  simp [skipSpace, h]

/-- A well-shaped script line is accepted by `expectLine` and its text
extracted. -/
theorem expectLine_exact (c : Char) (pre' content rest : List Char)
    (hsp : isspace c = false) (hnl : '\n' ∉ content) :
    expectLine (c :: pre') ((c :: pre') ++ (content ++ ('"' :: ';' :: '\n' :: rest))) =
      some (content, content ++ ('"' :: ';' :: '\n' :: rest), rest) := by
  have hnc : '\n' ∉ content ++ ['"', ';'] := fun hmem =>
    (List.mem_append.mp hmem).elim (fun h => hnl h) (fun h => by revert h; decide)
  have hbrk := breakNl_append (content ++ ['"', ';']) rest hnc
  have h3 : endsQS (content ++ ['"', ';']) = true := by
    unfold endsQS
    rw [List.reverse_append]
    rfl
  unfold expectLine
  simp only [List.cons_append]
  rw [skipSpace_cons _ _ hsp]
  simp only [hasPre, beq_self_eq_true, Bool.true_and, hasPre_append, if_true,
    List.length_cons, List.drop_succ_cons, List.drop_left]
  have h2 : content ++ ('"' :: ';' :: '\n' :: rest)
      = (content ++ ['"', ';']) ++ '\n' :: rest := by simp
  rw [h2, hbrk]
  simp only [h3, if_true]
  have h4 : (content ++ ['"', ';']).length - 2 = content.length := by simp
  rw [h4, List.take_left]

/-- C5, corrected: all three lines are required even for the `Error`
status.  For every newline-free prompt and inputStr, the full
three-line Error body parses to status 1 with both texts, while the
same body with the `thisForm.inputStr` line absent is rejected
(`-EINVAL`) — the parser does not succeed on `respStatus`/`respMsg`
alone. -/
theorem C5_error_requires_all_three_lines (p i : List Char)
    (hp : '\n' ∉ p) (hi : '\n' ∉ i) :
    parse_javascript (jsErrorBody3 p i) = some (1, p, i) ∧
      parse_javascript (jsErrorBody2 p) = none := by
  have hch : ∀ X : List Char, hasPre chalPre (errPre ++ X) = false := fun X => rfl
  have herr : ∀ X : List Char, hasPre errPre (errPre ++ X) = true := fun X =>
    hasPre_append errPre X
  have hmsg : ∀ rest : List Char, expectLine pre_prompt
      (pre_prompt ++ (p ++ ('"' :: ';' :: '\n' :: rest)))
      = some (p, p ++ ('"' :: ';' :: '\n' :: rest), rest) :=
    fun rest => expectLine_exact 'v' _ _ _ (by decide) hp
  have hinp : expectLine pre_inputStr
      (pre_inputStr ++ (i ++ ('"' :: ';' :: '\n' :: [])))
      = some (i, i ++ ('"' :: ';' :: '\n' :: []), []) :=
    expectLine_exact 't' _ _ _ (by decide) hi
  have hnili : expectLine pre_inputStr [] = none := rfl
  have hstatus : ∀ X : List Char,
      statusOf (errPre ++ ('"' :: ';' :: '\n' :: X)) = some 1 := by
    intro X
    unfold statusOf
    rw [hch, herr]
    simp
  constructor
  · unfold parse_javascript jsErrorBody3 jsStatusLineErr
    rw [show (pre_status : List Char) = 'v' :: pre_status.tail from rfl,
      expectLine_exact 'v' _ _ _ (by decide) (by decide)]
    simp only [Option.some_bind]
    rw [hstatus]
    simp only [Option.some_bind]
    rw [show jsMsgLine p (jsInputLine i [])
        = pre_prompt ++ (p ++ ('"' :: ';' :: '\n' :: jsInputLine i [])) from rfl,
      hmsg]
    simp only [Option.some_bind]
    rw [show jsInputLine i []
        = pre_inputStr ++ (i ++ ('"' :: ';' :: '\n' :: [])) from rfl, hinp]
    simp only [Option.some_bind]
    simp [skipSpace]
  · unfold parse_javascript jsErrorBody2 jsStatusLineErr
    rw [show (pre_status : List Char) = 'v' :: pre_status.tail from rfl,
      expectLine_exact 'v' _ _ _ (by decide) (by decide)]
    simp only [Option.some_bind]
    rw [hstatus]
    simp only [Option.some_bind]
    rw [show jsMsgLine p [] = pre_prompt ++ (p ++ ('"' :: ';' :: '\n' :: [])) from rfl,
      hmsg]
    simp only [Option.some_bind]
    rw [hnili]
    simp

/-- Witness for C5's amended statement at a concrete prompt and
inputStr. -/
theorem C5_witness :
    parse_javascript (jsErrorBody3 ['O'] ['a']) = some (1, ['O'], ['a']) ∧
      parse_javascript (jsErrorBody2 ['O']) = none :=
  C5_error_requires_all_three_lines ['O'] ['a'] (by decide) (by decide)

/-- C5 counterexample: a well-formed Error body whose
`thisForm.inputStr` line is absent is rejected by `parse_javascript`,
so the claim that only `respStatus` and `respMsg` are required for an
Error status fails on the code. -/
theorem C5_cx : parse_javascript (jsErrorBody2 ['B', 'a', 'd']) = none := by
  decide

/-- The `<access-routes>` member fold prepends each member, so it
reverses on top of the existing list. -/
theorem accessRoutes_foldl (ms : List String) (st : GpState) :
    (ms.foldl
      (fun s m =>
        { s with splitIncludes := m :: s.splitIncludes,
                 cstpOptions := ("split-include", m) :: s.cstpOptions })
      st).splitIncludes = ms.reverse ++ st.splitIncludes := by
  induction ms generalizing st with
  | nil => simp
  | cons m ms ih => simp [ih]

/-- C6, corrected: after parsing a config response whose
`<access-routes>` element lists members `m1, ..., mk` in document
order, the split-include list holds them in reverse document order
(each member is prepended to the head of the list). -/
theorem C6_access_routes_reversed (now : Nat) (st : GpState) (ms : List String) :
    ((gpst_parse_config_xml now st (.responseCfg [.accessRoutes ms])).2).splitIncludes
      = ms.reverse := by
  simp [gpst_parse_config_xml, cfgStep, accessRoutes_foldl]

/-- C6 counterexample: two routes in document order come back
reversed, so the claimed document order fails on the code. -/
theorem C6_cx :
    ((gpst_parse_config_xml 0 gpstState0
        (.responseCfg [.accessRoutes ["a", "b"]])).2).splitIncludes
      ≠ ["a", "b"] := by
  decide

/-- Every exit of the validation tail goes through `out:`, so the
state it returns is the parsed one and the old option list is
released. -/
theorem gpst_validate_shape (oa om : Option String) (s : GpState) :
    (gpst_validate oa om s).2.1 = s ∧ (gpst_validate oa om s).2.2 = true := by
  unfold gpst_validate gpst_netmask_check
  rcases s.addr with _ | a <;> rcases oa with _ | olda <;> rcases om with _ | m <;>
    simp <;> split_ifs <;> simp

/-- A zero result of the validation tail pins the state down: an
address is present, it matches a previously set address, and the
netmask matches a previously set netmask. -/
theorem gpst_validate_success (oa om : Option String) (s : GpState)
    (st' : GpState) (f : Bool) (h : gpst_validate oa om s = (0, st', f)) :
    st' = s ∧ s.addr ≠ none ∧ (∀ a, oa = some a → s.addr = some a) ∧
      (∀ m, om = some m → s.netmask = some m) := by
  unfold gpst_validate gpst_netmask_check at h
  rcases hsa : s.addr with _ | a <;> rw [hsa] at h
  · simp at h
  · rcases oa with _ | olda <;> rcases om with _ | m <;>
      simp only [] at h <;>
      (try split_ifs at h) <;>
      simp_all [Prod.ext_iff]

/-- C2, corrected: only a failure of the HTTP exchange itself, or a
response rejected before the config callback runs (error XML, empty or
unparseable body, challenge-script Error), leaves the caller-visible
state unchanged with the previous option list still alive.  Once a
config `<response>` is parsed, the previous option list is released
and the freshly parsed state stays visible even when the subsequent
validation fails. -/
theorem C2_failed_negotiation_state :
    ∀ (now : Nat) (st : GpState) (res : Int) (body : RespBody) (menv : MtuEnv),
      (res < 0 → gpst_get_config now st res body menv = (res, st, false)) ∧
      (∀ e, 0 ≤ res → body = .xmlBody (.responseErr (some e)) →
        (gpst_get_config now st res body menv).2.1 = st ∧
          (gpst_get_config now st res body menv).2.2 = false ∧
          (gpst_get_config now st res body menv).1 < 0) ∧
      (0 ≤ res →
        (body = .noBody ∨ body = .garbage ∨ body = .xmlBody .otherRoot ∨
          (∃ pr, body = .jsError pr)) →
        (gpst_get_config now st res body menv).2.1 = st ∧
          (gpst_get_config now st res body menv).2.2 = false) ∧
      (∀ elems, 0 ≤ res → body = .xmlBody (.responseCfg elems) →
        (gpst_get_config now st res body menv).2.2 = true ∧
          (gpst_get_config now st res body menv).2.1 =
            mtuFix menv (gpst_parse_config_xml now st (.responseCfg elems)).2) := by
  intro now st res body menv
  refine ⟨fun hres => ?_, fun e hres hbody => ?_, fun hres hbody => ?_,
    fun elems hres hbody => ?_⟩
  · simp [gpst_get_config, hres]
  · subst hbody
    have hneg : ¬ res < 0 := by omega
    simp only [gpst_get_config, if_neg hneg, gpst_xml_or_error, if_neg hneg]
    split_ifs with h1 h2 <;> simp_all
  · have hneg : ¬ res < 0 := by omega
    rcases hbody with h | h | h | ⟨pr, h⟩ <;> subst h <;>
      simp [gpst_get_config, hneg, gpst_xml_or_error, gpst_parse_config_xml]
  · subst hbody
    have hneg : ¬ res < 0 := by omega
    have hxml : gpst_xml_or_error now st res (.xmlBody (.responseCfg elems))
        = gpst_parse_config_xml now st (.responseCfg elems) := by
      simp [gpst_xml_or_error, hneg]
    have hr1 : (gpst_xml_or_error now st res (.xmlBody (.responseCfg elems))).1 = 0 := by
      rw [hxml]
      simp [gpst_parse_config_xml]
    simp only [gpst_get_config, if_neg hneg, hr1]
    rw [hxml]
    simp [gpst_validate_shape]

/-- Witness for C2's amended statement: an HTTP-level failure with a
concrete state really does return unchanged without releasing the
list. -/
theorem C2_witness :
    gpst_get_config 0 c2_st0 (-1) .noBody mtuEnv0 = (-1, c2_st0, false) :=
  (C2_failed_negotiation_state 0 c2_st0 (-1) .noBody mtuEnv0).1 (by decide)

/-- C2 counterexample: a config response with no `<ip-address>` fails
the negotiation after the HTTP exchange, yet the caller-visible
address has been wiped and the previous option list was released — the
claimed rollback does not happen. -/
theorem C2_cx :
    (gpst_get_config 0 c2_st0 0 (.xmlBody (.responseCfg [])) mtuEnv0).1 = -22 ∧
      (gpst_get_config 0 c2_st0 0 (.xmlBody (.responseCfg [])) mtuEnv0).2.2 = true ∧
      (gpst_get_config 0 c2_st0 0 (.xmlBody (.responseCfg [])) mtuEnv0).2.1.addr
        = none ∧
      c2_st0.addr = some "10.0.0.2" := by
  refine ⟨by decide, by decide, by decide, by decide⟩

/-- C7, corrected as: a successful negotiation always has an address;
when an address was previously set the new one equals it; and when a
netmask was previously set the new one equals it.  (When no netmask
had been set — possible, since `<netmask>` is optional — a reconnect
can succeed while the netmask changes from absent to present, which is
what the counterexample shows.) -/
theorem C7_reconnect_preserves (now : Nat) (st : GpState) (res : Int)
    (body : RespBody) (menv : MtuEnv) (st' : GpState) (f : Bool)
    (h : gpst_get_config now st res body menv = (0, st', f)) :
    st'.addr ≠ none ∧ (∀ a, st.addr = some a → st'.addr = some a) ∧
      (∀ m, st.netmask = some m → st'.netmask = some m) := by
  simp only [gpst_get_config] at h
  by_cases hres : res < 0
  · rw [if_pos hres] at h
    exact absurd (congrArg Prod.fst h) (by simp; omega)
  · rw [if_neg hres] at h
    by_cases hr1 : (gpst_xml_or_error now st res body).1 = 0
    · rw [if_neg (not_not_intro hr1)] at h
      have hv := gpst_validate_success _ _ _ _ _ h
      rcases hv with ⟨hst, hsome, haddr, hmask⟩
      subst hst
      exact ⟨hsome, haddr, hmask⟩
    · rw [if_pos hr1] at h
      exact absurd (congrArg Prod.fst h) (by simp_all)

/-- Witness for C7's amended statement on a concrete successful
reconnect. -/
theorem C7_witness :
    c7_expected.addr ≠ none ∧
      (∀ a, c7_st0.addr = some a → c7_expected.addr = some a) ∧
      (∀ m, c7_st0.netmask = some m → c7_expected.netmask = some m) :=
  C7_reconnect_preserves 0 c7_st0 0 c7_body mtuEnv0 c7_expected true (by decide)

/-- C7 counterexample: with an address set but no netmask set, a
config response carrying the same address plus a netmask succeeds,
and the netmask after the call differs from the one before — the
claimed preservation of the full `(addr, netmask)` pair fails. -/
theorem C7_cx :
    (gpst_get_config 0 c7_st0 0 c7_body mtuEnv0).1 = 0 ∧
      c7_st0.addr = some "10.0.0.2" ∧ c7_st0.netmask = none ∧
      (gpst_get_config 0 c7_st0 0 c7_body mtuEnv0).2.1.netmask
        = some "255.255.255.0" := by
  refine ⟨by decide, by decide, by decide, by decide⟩

/-- With an open socket and no inbound data, an invocation is exactly
its write half. -/
theorem mainloop_open (fuel : Nat) (st : MLState) (env : Env)
    (h1 : st.sslOpen = true) (h2 : env.reads = []) :
    gpst_mainloop fuel st env = wdrive env false fuel st 0 0 [] [] := by
  simp [gpst_mainloop, h1, h2, readLoop]

theorem wdrive_succ_ret (env : Env) (wd : Bool) (n : Nat) (st : MLState)
    (wi ki : Nat) (ws : List (List Nat × Nat)) (dq : List Pkt) (r : MLRes)
    (h : onePass env wd st wi ki ws dq = .ret r) :
    wdrive env wd (n + 1) st wi ki ws dq = some r := by
  simp [wdrive, h]

theorem wdrive_succ_again (env : Env) (wd : Bool) (n : Nat) (st : MLState)
    (wi ki : Nat) (ws : List (List Nat × Nat)) (dq : List Pkt) (st' : MLState)
    (wi' ki' : Nat) (ws' : List (List Nat × Nat)) (dq' : List Pkt)
    (h : onePass env wd st wi ki ws dq = .again st' wi' ki' ws' dq') :
    wdrive env wd (n + 1) st wi ki ws dq = wdrive env wd n st' wi' ki' ws' dq' := by
  simp [wdrive, h]

theorem doReconnect_dequeued (env : Env) (st : MLState)
    (ws : List (List Nat × Nat)) (dq : List Pkt) :
    (doReconnect env st ws dq).dequeued = dq := by
  unfold doReconnect
  split_ifs <;> rfl

/-- A pass whose first write attempt makes no progress while the
stalled-timer oracle says none: the invocation ends, the write attempt
was recorded, the in-flight packet stays in its slot, and nothing was
dequeued in this pass. -/
theorem stallPass (env : Env) (h4 : env.writeRes 0 = 0)
    (h5 : env.kaStalled = .ka_none) (wd : Bool) (st : MLState) (p : Pkt)
    (ki : Nat) (ws : List (List Nat × Nat)) (dq : List Pkt)
    (hc : st.currentSslPkt = some p) :
    onePass env wd st 0 ki ws dq =
      .ret ⟨if wd then 1 else 0,
        { st with lastTx := env.now, monitoredWrite := false },
        ws ++ [(p.hdr ++ p.payload, p.pktLen + 16)], dq⟩ := by
  simp [onePass, hc, h4, h5]

/-- Driving a stalled in-flight packet dequeues nothing further. -/
theorem wdriveStall (env : Env) (h4 : env.writeRes 0 = 0)
    (h5 : env.kaStalled = .ka_none) (wd : Bool) (st : MLState) (p : Pkt)
    (fuel ki : Nat) (ws : List (List Nat × Nat)) (dq : List Pkt) (r : MLRes)
    (hc : st.currentSslPkt = some p)
    (hdr : wdrive env wd fuel st 0 ki ws dq = some r) : r.dequeued = dq := by
  cases fuel with
  | zero => simp [wdrive] at hdr
  | succ n =>
    rw [wdrive_succ_ret env wd n st 0 ki ws dq _
      (stallPass env h4 h5 wd st p ki ws dq hc)] at hdr
    injection hdr with h
    rw [← h]

/-- C4: when the non-blocking write of the in-flight packet returns 0
and the timer oracle says none, the invocation returns leaving the
current-packet slot unchanged, having attempted exactly one write of
the packet's buffer with length `len + 16`; the next invocation
attempts exactly the same write of the same buffer with the same
length — the packet is never regenerated in between. -/
theorem C4_partial_write_same_buffer (st : MLState) (p : Pkt)
    (env1 env2 : Env) (h1 : st.sslOpen = true) (h2 : st.currentSslPkt = some p)
    (h3 : env1.reads = []) (h4 : env1.writeRes 0 = 0)
    (h5 : env1.kaStalled = .ka_none) (h6 : env2.reads = [])
    (h7 : env2.writeRes 0 = 0) (h8 : env2.kaStalled = .ka_none) :
    ∀ f1 f2 : Nat,
      gpst_mainloop (f1 + 1) st env1 =
        some ⟨0, { st with lastTx := env1.now, monitoredWrite := false },
          [(p.hdr ++ p.payload, p.pktLen + 16)], []⟩ ∧
      gpst_mainloop (f2 + 1)
          { st with lastTx := env1.now, monitoredWrite := false } env2 =
        some ⟨0, { st with lastTx := env2.now, monitoredWrite := false },
          [(p.hdr ++ p.payload, p.pktLen + 16)], []⟩ := by
  intro f1 f2
  constructor
  · rw [mainloop_open _ _ _ h1 h3,
      wdrive_succ_ret _ _ _ _ _ _ _ _ _ (stallPass env1 h4 h5 false st p 0 [] [] h2)]
    simp
  · rw [mainloop_open _ _ _ (by simp [h1]) h6,
      wdrive_succ_ret _ _ _ _ _ _ _ _ _
        (stallPass env2 h7 h8 false _ p 0 [] [] (by simp [h2]))]
    simp

/-- Witness for C4 on a concrete in-flight packet and two stalled
invocations. -/
theorem C4_witness :
    gpst_mainloop 1 c4_st c4_env1 =
      some ⟨0, { c4_st with lastTx := 7, monitoredWrite := false },
        [(pktA.hdr ++ pktA.payload, pktA.pktLen + 16)], []⟩ ∧
    gpst_mainloop 1 { c4_st with lastTx := 7, monitoredWrite := false } c4_env2 =
      some ⟨0, { c4_st with lastTx := 9, monitoredWrite := false },
        [(pktA.hdr ++ pktA.payload, pktA.pktLen + 16)], []⟩ :=
  C4_partial_write_same_buffer c4_st pktA c4_env1 c4_env2 rfl rfl rfl rfl rfl
    rfl rfl rfl 0 0

/-- C3, corrected: the at-most-one-dequeue bound holds only while the
write collaborator makes no progress.  When the first write attempt of
the invocation returns 0 and the stalled-timer oracle says none, at
most one outbound packet is dequeued; the counterexample shows that
with writes succeeding the loop keeps dequeuing in the same
invocation. -/
theorem C3_single_dequeue_when_stalled (st : MLState) (env : Env)
    (h1 : st.sslOpen = true) (h2 : env.reads = [])
    (h3 : env.writeRes 0 = 0) (h4 : env.kaStalled = .ka_none) :
    ∀ (fuel : Nat) (r : MLRes),
      gpst_mainloop fuel st env = some r → r.dequeued.length ≤ 1 := by
  intro fuel r h
  rw [mainloop_open fuel st env h1 h2] at h
  cases hc : st.currentSslPkt with
  | some p =>
    have hd := wdriveStall env h3 h4 false st p fuel 0 [] [] r hc h
    simp [hd]
  | none =>
    cases fuel with
    | zero => simp [wdrive] at h
    | succ n =>
      have hone : onePass env false st 0 0 [] [] = kaStep env false st 0 0 [] [] := by
        simp [onePass, hc]
      cases hka : env.ka 0 with
      | rekey =>
        rw [wdrive_succ_ret env false n st 0 0 [] [] (doReconnect env st [] [])
          (by rw [hone]; simp [kaStep, hka])] at h
        injection h with h
        rw [← h, doReconnect_dequeued]
        simp
      | dpd_dead =>
        rw [wdrive_succ_ret env false n st 0 0 [] [] (doReconnect env st [] [])
          (by rw [hone]; simp [kaStep, hka])] at h
        injection h with h
        rw [← h, doReconnect_dequeued]
        simp
      | dpd =>
        rw [wdrive_succ_again env false n st 0 0 [] []
          { st with currentSslPkt := some dpd_pkt } 0 1 [] []
          (by rw [hone]; simp [kaStep, hka])] at h
        have hd := wdriveStall env h3 h4 false
          { st with currentSslPkt := some dpd_pkt } dpd_pkt n 1 [] [] r rfl h
        simp [hd]
      | keepalive =>
        by_cases hcond : !st.dtlsConnected && !st.outgoingQueue.isEmpty
        · have hdt : st.dtlsConnected = false := by
            revert hcond
            cases st.dtlsConnected <;> simp
          rcases hq : st.outgoingQueue with _ | ⟨q, rest⟩
          · rw [hq] at hcond
            simp at hcond
          · rw [wdrive_succ_again env false n st 0 0 [] []
              { st with currentSslPkt := some (stampHeader q),
                        outgoingQueue := rest } 0 1 [] [stampHeader q]
              (by rw [hone]; simp [kaStep, hka, hcond, deqStep, hdt, hq])] at h
            have hd := wdriveStall env h3 h4 false
              { st with currentSslPkt := some (stampHeader q),
                        outgoingQueue := rest }
              (stampHeader q) n 1 [] [stampHeader q] r rfl h
            simp [hd]
        · rw [wdrive_succ_again env false n st 0 0 [] []
            { st with currentSslPkt := some dpd_pkt } 0 1 [] []
            (by rw [hone]; simp [kaStep, hka, hcond])] at h
          have hd := wdriveStall env h3 h4 false
            { st with currentSslPkt := some dpd_pkt } dpd_pkt n 1 [] [] r rfl h
          simp [hd]
      | ka_none =>
        rcases hdt : st.dtlsConnected with _ | _
        · rcases hq : st.outgoingQueue with _ | ⟨q, rest⟩
          · rw [wdrive_succ_ret env false n st 0 0 [] [] ⟨0, st, [], []⟩
              (by rw [hone]; simp [kaStep, hka, deqStep, hdt, hq])] at h
            injection h with h
            rw [← h]
            simp
          · rw [wdrive_succ_again env false n st 0 0 [] []
              { st with currentSslPkt := some (stampHeader q),
                        outgoingQueue := rest } 0 1 [] [stampHeader q]
              (by rw [hone]; simp [kaStep, hka, deqStep, hdt, hq])] at h
            have hd := wdriveStall env h3 h4 false
              { st with currentSslPkt := some (stampHeader q),
                        outgoingQueue := rest }
              (stampHeader q) n 1 [] [stampHeader q] r rfl h
            simp [hd]
        · rw [wdrive_succ_ret env false n st 0 0 [] [] ⟨0, st, [], []⟩
            (by rw [hone]; simp [kaStep, hka, deqStep, hdt])] at h
          injection h with h
          rw [← h]
          simp

/-- Witness for C3's amended statement: a stalled invocation with one
in-flight packet dequeues nothing further. -/
theorem C3_witness : c3w_res.dequeued.length ≤ 1 :=
  C3_single_dequeue_when_stalled c4_st c4_env1 rfl rfl rfl rfl 1 c3w_res (by rfl)

/-- C3 counterexample: two queued outbound packets, a write
collaborator that accepts every write, quiet timers — a single
invocation dequeues both packets, refuting "a second outbound packet
is never dequeued in the same invocation". -/
theorem C3_cx :
    (gpst_mainloop 9 c3_st c3_env).map (fun r => r.dequeued.length) = some 2 := by
  rfl

/-- C10: a received frame with good magic and consistent length but an
ethertype that is neither 0x0000 nor 0x0800 first updates `last_rx`
and then terminates with quit reason "Unknown packet received" — the
same fatal outcome as a bad-magic frame; a frame whose byte count
disagrees with its length field is instead logged and skipped, the
invocation returning idle with the state untouched. -/
theorem C10_unknown_ethertype_fatal (st : MLState) (env : Env) (bs : List Nat)
    (hopen : st.sslOpen = true) (hreads : env.reads = [.bytes bs])
    (hmagic : load_be32 bs = 0x1a2b3c4d)
    (hlen : bs.length = 16 + load_be16 (bs.drop 6))
    (heth0 : load_be16 (bs.drop 4) ≠ 0) (heth8 : load_be16 (bs.drop 4) ≠ 0x800) :
    (∀ fuel, gpst_mainloop fuel st env =
      some ⟨1,
        { st with lastRx := env.now, quitReason := some "Unknown packet received" },
        [], []⟩) ∧
    (∀ (bs' : List Nat) (env' : Env), env'.reads = [.bytes bs'] →
      load_be32 bs' = 0x1a2b3c4d → 16 ≤ bs'.length →
      bs'.length ≠ 16 + load_be16 (bs'.drop 6) →
      st.currentSslPkt = none → st.outgoingQueue = [] → env'.ka 0 = .ka_none →
      ∀ f, gpst_mainloop (f + 1) st env' = some ⟨0, st, [], []⟩) := by
  have h0 : ¬ bs.length = 0 := by omega
  have h16 : ¬ bs.length < 16 := by omega
  constructor
  · intro fuel
    rw [gpst_mainloop, if_neg (by simp [hopen]), hreads]
    rw [show readLoop env st false [.bytes bs] =
        .finished 1
          { st with lastRx := env.now, quitReason := some "Unknown packet received" }
        from by
      simp only [readLoop, if_neg h0, if_neg h16,
        if_neg (not_not_intro hmagic), if_neg (not_not_intro hlen),
        if_neg heth0, if_neg heth8]]
  · intro bs' env' hreads' hmagic' h16' hmis hcur hq hka f
    have h0' : ¬ bs'.length = 0 := by omega
    have h16n : ¬ bs'.length < 16 := by omega
    rw [gpst_mainloop, if_neg (by simp [hopen]), hreads']
    rw [show readLoop env' st false [.bytes bs'] = .done st false from by
      simp only [readLoop, if_neg h0', if_neg h16n,
        if_neg (not_not_intro hmagic'), if_pos hmis]]
    show wdrive env' false (f + 1) st 0 0 [] [] = some ⟨0, st, [], []⟩
    rw [wdrive_succ_ret env' false f st 0 0 [] [] ⟨0, st, [], []⟩
      (by rcases hdt : st.dtlsConnected with _ | _ <;>
        simp [onePass, hcur, kaStep, hka, deqStep, hdt, hq])]

/-- Witness for C10 at a concrete 16-byte frame with ethertype
0x86dd. -/
theorem C10_witness :
    gpst_mainloop 1 mlState0 c10_env =
      some ⟨1,
        { mlState0 with lastRx := 3, quitReason := some "Unknown packet received" },
        [], []⟩ :=
  (C10_unknown_ethertype_fatal mlState0 c10_env c10_frame rfl rfl (by decide)
    (by decide) (by decide) (by decide)).1 1

/-- C9: after a successful HTTPS open the opener requests exactly 12
bytes; 12 bytes equal to `START_TUNNEL` succeed and initialise
`last_rekey = last_rx = last_tx = now` with the socket monitored; a
zero-byte read (with the stack garbage not spelling the sentinel) is
`-EPIPE`; any other 12 bytes consume exactly one extra line via
`ssl_gets` and fail with `-EINVAL`. -/
theorem C9_start_tunnel_handshake (t0 : Nat × Nat × Nat) (env : ConnEnv)
    (hopen : env.openRes = 0) :
    (gpst_connect t0 env).readRequests = [12] ∧
    (env.readRet = 12 → env.readBytes = START_TUNNEL →
      gpst_connect t0 env = ⟨0, 0, env.now, env.now, env.now, true, false, [12]⟩) ∧
    (env.readRet = 0 → (env.readBytes ++ env.bufRest).take 12 ≠ START_TUNNEL →
      (gpst_connect t0 env).ret = -32) ∧
    (env.readRet = 12 → env.readBytes.length = 12 →
      env.readBytes ≠ START_TUNNEL →
      (gpst_connect t0 env).ret = -22 ∧ (gpst_connect t0 env).getsCalls = 1) := by
  refine ⟨?_, fun hr hb => ?_, fun hr hb => ?_, fun hr hlen hb => ?_⟩
  · unfold gpst_connect
    rw [if_neg (not_not_intro hopen)]
    split_ifs <;> rfl
  · unfold gpst_connect
    rw [if_neg (not_not_intro hopen), if_neg (by rw [hr]; omega), if_pos]
    rw [hb]
    rw [show (START_TUNNEL ++ env.bufRest).take 12
        = (START_TUNNEL ++ env.bufRest).take START_TUNNEL.length from rfl,
      List.take_left]
  · unfold gpst_connect
    rw [if_neg (not_not_intro hopen), if_neg (by rw [hr]; omega), if_neg hb,
      if_pos hr]
  · have htake : (env.readBytes ++ env.bufRest).take 12 = env.readBytes := by
      rw [show (env.readBytes ++ env.bufRest).take 12
          = (env.readBytes ++ env.bufRest).take env.readBytes.length from by
        rw [hlen], List.take_left]
    unfold gpst_connect
    rw [if_neg (not_not_intro hopen), if_neg (by rw [hr]; omega), if_neg (by
      rw [htake]; exact hb), if_neg (by rw [hr]; omega), if_pos hr]
    exact ⟨rfl, rfl⟩

/-- Witness for C9 on the successful-handshake fixture. -/
theorem C9_witness :
    gpst_connect (0, 0, 0) c9_env_ok = ⟨0, 0, 42, 42, 42, true, false, [12]⟩ :=
  (C9_start_tunnel_handshake (0, 0, 0) c9_env_ok rfl).2.1 rfl rfl

end Gpst
